import Mathlib

/-!
# CampusBarter — shallow embedding and verification

This file embeds the core of the CampusBarter server (the Drizzle/Express
TypeScript sources: `shared/schema.ts`, the storage layer with
`DatabaseStorage.checkout`, and the route handlers in `routes.ts`) into
Lean 4, and proves or refutes the specification claims about the
message-authorization protocol, the checkout transaction, and the
validation schemas.

Conventions of the embedding:
* Database ids (uuids in the source) are modelled as `Nat`.
* `decimal(10,2)` price strings are modelled by their exact rational
  value (`ℚ`); a nullable column is an `Option`.
* JavaScript numbers are IEEE binary64 doubles; we model a double by the
  exact rational it denotes, and `parseFloat` / `+` by rounding the exact
  rational result to 53 significant bits, round-to-nearest, ties to even
  (`roundB64` below; the model covers the normal range, which contains
  every value reachable from `decimal(10,2)` prices).
* The relational store is a record of lists; a route handler is a function
  `Store → … → Store × Except ApiError α` which returns the unchanged
  store on every error path, matching the fact that the handlers only call
  the storage layer after all checks pass, and that `db.transaction`
  rolls every partial write back when a step throws.
-/

namespace CampusBarter

/-- A row of the `users` table (`shared/schema.ts`).  Only the id takes
part in the verified logic; the profile columns are irrelevant here. -/
structure User where
  id : Nat
  deriving DecidableEq, Repr

/-- A row of the `items` table (`shared/schema.ts`): owner, listing data,
`itemType` (the source stores a free-form string, `"sell"` or `"barter"`
by convention), nullable `price` (decimal) and `expectedExchange`, and the
`isSold` flag (default `false`). -/
structure Item where
  id : Nat
  userId : Nat
  title : String
  description : String
  category : String
  imageUrl : String
  itemType : String
  expectedExchange : Option String
  price : Option ℚ
  isSold : Bool
  deriving DecidableEq, Repr

/-- A row of the `messages` table: sender, receiver, item, nullable
`messageText` and nullable file reference columns. -/
structure Message where
  id : Nat
  senderId : Nat
  receiverId : Nat
  itemId : Nat
  messageText : Option String
  fileUrl : Option String
  fileType : Option String
  fileName : Option String
  deriving DecidableEq, Repr

/-- A row of the `cart_items` table: a (user, item) membership pair. -/
structure CartEntry where
  id : Nat
  userId : Nat
  itemId : Nat
  deriving DecidableEq, Repr

/-- A row of the `wishlist_items` table, same shape as `CartEntry`. -/
structure WishlistEntry where
  id : Nat
  userId : Nat
  itemId : Nat
  deriving DecidableEq, Repr

/-- A row of the `orders` table; `total` is the decimal column holding the
value computed by `DatabaseStorage.checkout`. -/
structure Order where
  id : Nat
  userId : Nat
  total : ℚ
  deriving DecidableEq, Repr

/-- A row of the `order_items` table: the (order, item, price-at-purchase)
snapshot. -/
structure OrderItem where
  id : Nat
  orderId : Nat
  itemId : Nat
  price : ℚ
  deriving DecidableEq, Repr

/-- The relational store: one list per table, plus a counter supplying
fresh ids (standing in for `gen_random_uuid()`). -/
structure Store where
  users : List User
  items : List Item
  messages : List Message
  cartItems : List CartEntry
  wishlistItems : List WishlistEntry
  orders : List Order
  orderItems : List OrderItem
  nextId : Nat
  deriving DecidableEq, Repr

/-- Errors surfaced by the route handlers: 404 not-found, 403 forbidden
(authorization denied), 400 validation (a `ZodError` or a missing required
body field), and the checkout failures thrown inside the transaction and
surfaced as 500 with the thrown message. -/
inductive ApiError where
  | notFound (msg : String)
  | forbidden (msg : String)
  | validation
  | emptyCart
  | noSellableItems
  | writeFailure
  deriving DecidableEq, Repr

/-! ## IEEE binary64 model

`DatabaseStorage.checkout` computes
`total = validItems.reduce((sum, row) => sum + parseFloat(row.items!.price || "0"), 0)`
in JavaScript number arithmetic, i.e. IEEE binary64. We model a double by
the exact rational it denotes and every arithmetic step by rounding the
exact result to 53 significant bits, round to nearest, ties to even. -/

/-- Number of binary digits of `n` (`0` for `0`), fuel-driven so that the
kernel can reduce it structurally; the fuel `4096` covers every number
with fewer than 4096 bits, far beyond the binary64 range. -/
def bitlenAux : Nat → Nat → Nat
  | 0, _ => 0
  | fuel + 1, n => if n = 0 then 0 else bitlenAux fuel (n / 2) + 1

/-- Binary length of a natural number. -/
def bitlen (n : Nat) : Nat := bitlenAux 4096 n

/-- Decide `2 ^ L ≤ q` using only integer arithmetic (`q` positive). -/
def qGePow2 (q : ℚ) (L : ℤ) : Bool :=
  if 0 ≤ L then (q.den : ℤ) * 2 ^ L.toNat ≤ q.num
  else (q.den : ℤ) ≤ q.num * 2 ^ (-L).toNat

/-- `⌊log₂ q⌋` for positive `q`, via the binary lengths of numerator and
denominator (the candidate is off by at most one, fixed by one
comparison). -/
def floorLog2 (q : ℚ) : ℤ :=
  let L0 : ℤ := (bitlen q.num.natAbs : ℤ) - (bitlen q.den : ℤ)
  if qGePow2 q L0 then L0 else L0 - 1

/-- Round `n / d` (`d > 0`) to the nearest integer, ties to even. -/
def rneNat (n d : Nat) : Nat :=
  let q := n / d
  let r := n % d
  if 2 * r < d then q
  else if d < 2 * r then q + 1
  else if q % 2 = 0 then q else q + 1

/-- Round an exact rational to IEEE binary64: scale `|x|` so that the
mantissa window holds 53 bits, round to nearest (ties to even), and scale
back.  This is exact IEEE round-to-nearest-even on the normal range,
which contains every value arising from `decimal(10,2)` prices. -/
def roundB64 (x : ℚ) : ℚ :=
  if x = 0 then 0
  else
    let a : ℚ := |x|
    let e : ℤ := floorLog2 a - 52
    let m : Nat :=
      if 0 ≤ e then rneNat a.num.natAbs (a.den * 2 ^ e.toNat)
      else rneNat (a.num.natAbs * 2 ^ (-e).toNat) a.den
    let mag : ℚ :=
      if 0 ≤ e then ((m * 2 ^ e.toNat : Nat) : ℚ)
      else (m : ℚ) / ((2 ^ (-e).toNat : Nat) : ℚ)
    if x < 0 then -mag else mag

/-- JavaScript `a + b` on doubles: exact sum, rounded to binary64. -/
def jsAdd (a b : ℚ) : ℚ := roundB64 (a + b)

/-- `parseFloat(price || "0")` on a nullable decimal column: a null price
becomes `"0"`, and parsing a decimal literal yields the nearest double. -/
def jsParsePrice (p : Option ℚ) : ℚ := roundB64 (p.getD 0)

/-- Round a rational to the nearest integer, ties away from zero — the
rounding PostgreSQL applies when assigning to a `numeric` column. -/
def rhaz (q : ℚ) : ℤ :=
  if 0 ≤ q then ⌊q + 1 / 2⌋ else -⌊-q + 1 / 2⌋

/-- Assignment to a `numeric(10,2)` column (`orders.total`,
shared/schema.ts): PostgreSQL rounds the inserted value to scale 2, half
away from zero; `.returning()` reflects the stored, quantized value. -/
def round2dec (q : ℚ) : ℚ := (rhaz (q * 100) : ℚ) / 100

/-! ## Query helpers (storage layer) -/

/-- `db.select().from(items).where(eq(items.id, id))`, first row. -/
def findItem (s : Store) (id : Nat) : Option Item :=
  s.items.find? (fun it => it.id == id)

/-- `db.select().from(users).where(eq(users.id, id))`, first row. -/
def findUser (s : Store) (id : Nat) : Option User :=
  s.users.find? (fun u => u.id == id)

/-- `DatabaseStorage.getMessagesByItemId`: the messages on `itemId` in
which `userId` takes part as sender or receiver. -/
def getMessagesByItemId (s : Store) (itemId userId : Nat) : List Message :=
  s.messages.filter
    (fun m => m.itemId == itemId && (m.senderId == userId || m.receiverId == userId))

/-! ## Validation schemas (`shared/schema.ts`) -/

/-- The whitespace class of JavaScript's `String.prototype.trim` on the
characters that occur here. -/
def isWs (c : Char) : Bool :=
  c = ' ' || c = '\t' || c = '\n' || c = '\r'

/-- Trim leading and trailing whitespace from a character list. -/
def trimChars (l : List Char) : List Char :=
  ((l.dropWhile isWs).reverse.dropWhile isWs).reverse

/-- The JavaScript test `v && v.trim().length > 0` on a nullable string
column: the value is present and not whitespace-only. -/
def presentNonBlank (v : Option String) : Bool :=
  match v with
  | none => false
  | some t => !(trimChars t.data).isEmpty

/-- `insertMessageSchema`'s `.refine` (shared/schema.ts): a message body
must carry non-blank `messageText` or a non-blank `fileUrl`.  (The base
`createInsertSchema(messages)` part only constrains the id columns, which
are ids by construction here.) -/
def insertMessageAccepts (messageText fileUrl : Option String) : Bool :=
  presentNonBlank messageText || presentNonBlank fileUrl

/-- The request body built by `POST /api/items` before validation: every
field comes from `req.body` and may be absent.  (`userId` is added from
the authenticated token and is always present, so it is not a field.) -/
structure ItemBody where
  title : Option String
  description : Option String
  category : Option String
  imageUrl : Option String
  itemType : Option String
  expectedExchange : Option String
  price : Option ℚ
  deriving DecidableEq, Repr

/-- `insertItemSchema` = `createInsertSchema(items).omit({id, createdAt})`
(shared/schema.ts): the non-nullable columns without a database default
(`userId`, `title`, `description`, `category`, `imageUrl`, `itemType`)
are required; the nullable columns `expectedExchange` and `price` are
optional, and `isSold` is optional because the column has a default.
There is no `.refine`, so no relation between `itemType` and
`price`/`expectedExchange` is checked.  `userId` is supplied by the route
and always present, so only the body fields are tested. -/
def insertItemAccepts (b : ItemBody) : Bool :=
  b.title.isSome && b.description.isSome && b.category.isSome &&
    b.imageUrl.isSome && b.itemType.isSome

/-! ## Route handlers (`routes.ts`) -/

/-- `POST /api/items`: validate the body against `insertItemSchema`, then
insert the row; the `isSold` column takes its database default `false`. -/
def createItem (s : Store) (userId : Nat) (b : ItemBody) :
    Store × Except ApiError Item :=
  if insertItemAccepts b then
    let newItem : Item :=
      { id := s.nextId
        userId := userId
        title := b.title.getD ""
        description := b.description.getD ""
        category := b.category.getD ""
        imageUrl := b.imageUrl.getD ""
        itemType := b.itemType.getD ""
        expectedExchange := b.expectedExchange
        price := b.price
        isSold := false }
    ({ s with items := s.items ++ [newItem], nextId := s.nextId + 1 }, .ok newItem)
  else
    (s, .error .validation)

/-- The update body of `PUT /api/items/:id`: the handler always passes
these seven keys; a key whose request value is `undefined` is skipped by
drizzle's `.set`, which we model as the field being `none`.  For the two
nullable columns the provided value may itself be null. -/
structure UpdateBody where
  title : Option String
  description : Option String
  category : Option String
  imageUrl : Option String
  itemType : Option String
  expectedExchange : Option (Option String)
  price : Option (Option ℚ)
  deriving DecidableEq, Repr

/-- Apply an update body to an item row (`updateItem`'s `.set`): provided
fields are overwritten, absent fields — in particular `isSold`, which the
handler never passes — keep their value. -/
def applyUpdate (it : Item) (b : UpdateBody) : Item :=
  { it with
    title := b.title.getD it.title
    description := b.description.getD it.description
    category := b.category.getD it.category
    imageUrl := b.imageUrl.getD it.imageUrl
    itemType := b.itemType.getD it.itemType
    expectedExchange := b.expectedExchange.getD it.expectedExchange
    price := b.price.getD it.price }

/-- `PUT /api/items/:id`: 404 when the item is missing, 403 when the
requester is not the owner, otherwise update the row. -/
def updateItemRoute (s : Store) (userId itemId : Nat) (b : UpdateBody) :
    Store × Except ApiError Item :=
  match findItem s itemId with
  | none => (s, .error (.notFound "Item not found"))
  | some item =>
    if item.userId != userId then
      (s, .error (.forbidden "Not authorized to update this item"))
    else
      ({ s with
          items := s.items.map (fun it => if it.id == itemId then applyUpdate it b else it) },
        .ok (applyUpdate item b))

/-- The request body of `POST /api/messages`; `fileUrl`/`fileType`/
`fileName` are never passed by this route. -/
structure MessageBody where
  itemId : Nat
  receiverId : Nat
  messageText : Option String
  deriving DecidableEq, Repr

/-- The tail of `POST /api/messages` after authorization: validate against
`insertMessageSchema` and insert the row. -/
def createValidatedMessage (s : Store) (senderId : Nat) (b : MessageBody) :
    Store × Except ApiError Message :=
  if insertMessageAccepts b.messageText none then
    let msg : Message :=
      { id := s.nextId
        senderId := senderId
        receiverId := b.receiverId
        itemId := b.itemId
        messageText := b.messageText
        fileUrl := none
        fileType := none
        fileName := none }
    ({ s with messages := s.messages ++ [msg], nextId := s.nextId + 1 }, .ok msg)
  else
    (s, .error .validation)

/-- `POST /api/messages`: 404 when the item or the receiver is missing
(checked in this order, before authorization); then the authorization
protocol — messaging the owner is always permitted, the owner may reply
to `receiverId` only if that user has already messaged the owner about
this item, and anyone else is rejected; then validation and insert. -/
def sendMessage (s : Store) (senderId : Nat) (b : MessageBody) :
    Store × Except ApiError Message :=
  match findItem s b.itemId with
  | none => (s, .error (.notFound "Item not found"))
  | some item =>
    match findUser s b.receiverId with
    | none => (s, .error (.notFound "Receiver not found"))
    | some _ =>
      let isItemOwner := item.userId == senderId
      let isMessagingOwner := b.receiverId == item.userId
      if isMessagingOwner then
        -- Buyer messaging owner - always allowed
        createValidatedMessage s senderId b
      else if isItemOwner then
        -- Owner messaging buyer - verify the buyer initiated contact
        let ownerMessages := getMessagesByItemId s b.itemId senderId
        let buyerInitiatedContact := ownerMessages.any
          (fun m => m.senderId == b.receiverId && m.receiverId == senderId)
        if !buyerInitiatedContact then
          (s, .error (.forbidden
            "You can only reply to users who have contacted you about this item"))
        else
          createValidatedMessage s senderId b
      else
        -- Neither owner nor messaging owner - unauthorized
        (s, .error (.forbidden "You can only message the item owner"))

/-- `POST /api/cart`: 400 when `itemId` is absent from the body, 404 when
the item does not exist, otherwise insert the membership row.  No sold
check and no duplicate check is performed. -/
def addToCart (s : Store) (userId : Nat) (itemId : Option Nat) :
    Store × Except ApiError CartEntry :=
  match itemId with
  | none => (s, .error .validation)
  | some iid =>
    match findItem s iid with
    | none => (s, .error (.notFound "Item not found"))
    | some _ =>
      let c : CartEntry := { id := s.nextId, userId := userId, itemId := iid }
      ({ s with cartItems := s.cartItems ++ [c], nextId := s.nextId + 1 }, .ok c)

/-- `DELETE /api/cart/:itemId`: delete the rows of this (user, item). -/
def removeFromCart (s : Store) (userId itemId : Nat) : Store :=
  { s with cartItems :=
      s.cartItems.filter (fun c => !(c.userId == userId && c.itemId == itemId)) }

/-- `POST /api/wishlist`, same shape as `addToCart`. -/
def addToWishlist (s : Store) (userId : Nat) (itemId : Option Nat) :
    Store × Except ApiError WishlistEntry :=
  match itemId with
  | none => (s, .error .validation)
  | some iid =>
    match findItem s iid with
    | none => (s, .error (.notFound "Item not found"))
    | some _ =>
      let w : WishlistEntry := { id := s.nextId, userId := userId, itemId := iid }
      ({ s with wishlistItems := s.wishlistItems ++ [w], nextId := s.nextId + 1 }, .ok w)

/-- `DELETE /api/wishlist/:itemId`. -/
def removeFromWishlist (s : Store) (userId itemId : Nat) : Store :=
  { s with wishlistItems :=
      s.wishlistItems.filter (fun w => !(w.userId == userId && w.itemId == itemId)) }

/-! ## The checkout transaction (`DatabaseStorage.checkout`) -/

/-- One row of the left join
`select().from(cartItems).leftJoin(items, eq(cartItems.itemId, items.id))`:
the cart row together with its item, if any. -/
structure CartRow where
  cartItem : CartEntry
  item : Option Item
  deriving DecidableEq, Repr

/-- The joined cart of `userId` (checkout step 1). -/
def cartRows (s : Store) (userId : Nat) : List CartRow :=
  (s.cartItems.filter (fun c => c.userId == userId)).map
    (fun c => { cartItem := c, item := findItem s c.itemId })

/-- The validity filter of checkout:
`row.items && row.items.itemType === 'sell' && !row.items.isSold`. -/
def isValidRow (r : CartRow) : Bool :=
  match r.item with
  | some it => it.itemType == "sell" && !it.isSold
  | none => false

/-- The valid rows of `userId`'s joined cart. -/
def validRows (s : Store) (userId : Nat) : List CartRow :=
  (cartRows s userId).filter isValidRow

/-- The order total computed by checkout:
`validItems.reduce((sum, row) => sum + parseFloat(row.items!.price || "0"), 0)`,
in JavaScript double arithmetic. -/
def floatTotal (rows : List CartRow) : ℚ :=
  rows.foldl (fun sum r => jsAdd sum (jsParsePrice (r.item.bind Item.price))) 0

/-- The `order_items` rows inserted by the checkout loop, one per valid
row in order, with consecutive fresh ids; `itemId` and `price` are read
off `row.items!` (`.getD` stands for the non-null assertion, which is
only reached when the row's item is present). -/
def buildOrderItems (nextId orderId : Nat) : List CartRow → List OrderItem
  | [] => []
  | r :: rest =>
    { id := nextId
      orderId := orderId
      itemId := (r.item.map Item.id).getD 0
      price := (r.item.bind Item.price).getD 0 } :: buildOrderItems (nextId + 1) orderId rest

/-- One `update items set isSold = true where id = row.items!.id` step of
the checkout loop. -/
def markSoldStep (acc : List Item) (r : CartRow) : List Item :=
  acc.map (fun it =>
    if it.id == (r.item.map Item.id).getD 0 then { it with isSold := true } else it)

/-- `DatabaseStorage.checkout userId` inside `db.transaction`: read the
joined cart; throw `"Cart is empty"` on an empty cart; filter to valid
rows; throw `"No available items to checkout"` when none remain; compute
the double-precision total; insert the order — the inserted
`total.toString()` is coerced by the `numeric(10,2)` column to scale 2
(`round2dec`), and the `.returning()` row carries that stored value;
insert one order-item per valid row and mark its item sold; clear the
user's whole cart.  A valid row whose item has a null price makes the
`order_items` insert violate the NOT NULL constraint on `price`; the
thrown error aborts `db.transaction`, which rolls back every write, so
the function returns the unchanged store (`writeFailure`). -/
def checkout (s : Store) (userId : Nat) : Store × Except ApiError Order :=
  let rows := cartRows s userId
  if rows.isEmpty then
    (s, .error .emptyCart)
  else
    let valids := rows.filter isValidRow
    if valids.isEmpty then
      (s, .error .noSellableItems)
    else if valids.any (fun r => (r.item.bind Item.price).isNone) then
      (s, .error .writeFailure)
    else
      let total := round2dec (floatTotal valids)
      let order : Order := { id := s.nextId, userId := userId, total := total }
      let newOrderItems := buildOrderItems (s.nextId + 1) order.id valids
      let items' := valids.foldl markSoldStep s.items
      ({ s with
          orders := s.orders ++ [order]
          orderItems := s.orderItems ++ newOrderItems
          items := items'
          cartItems := s.cartItems.filter (fun c => !(c.userId == userId))
          nextId := s.nextId + 1 + valids.length },
        .ok order)

end CampusBarter

deriving instance DecidableEq for Except

namespace CampusBarter

/-- Whether a route result is the 403 authorization rejection. -/
def isForbidden : Except ApiError Message → Bool
  | .error (.forbidden _) => true
  | _ => false

/-! ## Concrete stores used to evaluate the verified operations -/

/-- A store with two users and no listings. -/
def emptyStore : Store :=
  { users := [{ id := 1 }, { id := 2 }]
    items := []
    messages := []
    cartItems := []
    wishlistItems := []
    orders := []
    orderItems := []
    nextId := 50 }

/-- User 2's unsold sell item priced 10.50. -/
def textbookItem : Item :=
  { id := 10, userId := 2, title := "calc textbook", description := "used"
    category := "Books", imageUrl := "http://img/10", itemType := "sell"
    expectedExchange := none, price := some (21 / 2), isSold := false }

/-- User 2's unsold sell item priced 20.25. -/
def lampItem : Item :=
  { id := 11, userId := 2, title := "desk lamp", description := "bright"
    category := "Furniture", imageUrl := "http://img/11", itemType := "sell"
    expectedExchange := none, price := some (81 / 4), isSold := false }

/-- User 2's barter item (null price). -/
def posterItem : Item :=
  { id := 12, userId := 2, title := "poster", description := "large"
    category := "Other", imageUrl := "http://img/12", itemType := "barter"
    expectedExchange := some "any novel", price := none, isSold := false }

/-- User 2's already-sold sell item. -/
def fridgeItem : Item :=
  { id := 13, userId := 2, title := "mini fridge", description := "cold"
    category := "Electronics", imageUrl := "http://img/13", itemType := "sell"
    expectedExchange := none, price := some 5, isSold := true }

/-- Buyer 1's first message to owner 2 about item 10. -/
def buyerHello : Message :=
  { id := 40, senderId := 1, receiverId := 2, itemId := 10
    messageText := some "is it available", fileUrl := none
    fileType := none, fileName := none }

/-- A populated store: user 2 owns a sell item `10` priced 10.50, a sell
item `11` priced 20.25, a barter item `12`, and an already-sold sell item
`13`; user 1 has all four in the cart, user 2 has a wishlist entry, and
user 1 has already messaged user 2 about item 10. -/
def demoStore : Store :=
  { users := [{ id := 1 }, { id := 2 }, { id := 3 }]
    items := [textbookItem, lampItem, posterItem, fridgeItem]
    messages := [buyerHello]
    cartItems :=
      [ { id := 100, userId := 1, itemId := 10 }
      , { id := 101, userId := 1, itemId := 11 }
      , { id := 102, userId := 1, itemId := 12 }
      , { id := 103, userId := 1, itemId := 13 } ]
    wishlistItems := [{ id := 300, userId := 2, itemId := 10 }]
    orders := []
    orderItems := []
    nextId := 500 }

/-- User 1's own unsold sell listing, used by the self-purchase witness. -/
def bikeItem : Item :=
  { id := 30, userId := 1, title := "own bike", description := "red"
    category := "Sports", imageUrl := "http://img/30", itemType := "sell"
    expectedExchange := none, price := some 3, isSold := false }

/-- A store in which user 1 has their own sell listing in their own cart. -/
def selfStore : Store :=
  { users := [{ id := 1 }]
    items := [bikeItem]
    messages := []
    cartItems := [{ id := 120, userId := 1, itemId := 30 }]
    wishlistItems := []
    orders := []
    orderItems := []
    nextId := 700 }

/-! ## Concrete request bodies used by the witnesses -/

/-- An item body that passes `insertItemSchema` although it declares
`itemType = "sell"` with no price. -/
def sellNoPriceBody : ItemBody :=
  { title := some "ghost item", description := some "no price"
    category := some "Other", imageUrl := some "http://img/x"
    itemType := some "sell", expectedExchange := none, price := none }

/-- A fully populated sell item body. -/
def okItemBody : ItemBody :=
  { title := some "headphones", description := some "over ear"
    category := some "Electronics", imageUrl := some "http://img/y"
    itemType := some "sell", expectedExchange := none, price := some 12 }

/-- A partial update body (new title and price only). -/
def updBody : UpdateBody :=
  { title := some "new title", description := none, category := none
    imageUrl := none, itemType := none, expectedExchange := none
    price := some (some 9) }

/-- A buyer's message to the owner of item 10. -/
def okMsgBody : MessageBody :=
  { itemId := 10, receiverId := 2, messageText := some "hello" }

/-- The owner of item 10 replying to buyer 1. -/
def ownerReplyBody : MessageBody :=
  { itemId := 10, receiverId := 1, messageText := some "yes it is" }

/-- A message whose text is whitespace only. -/
def blankMsgBody : MessageBody :=
  { itemId := 10, receiverId := 2, messageText := some "   " }

/-- A message referencing an item id that does not exist. -/
def missingItemMsgBody : MessageBody :=
  { itemId := 999, receiverId := 2, messageText := some "hi" }

/-- The owner of item 10 trying to message user 3, who never contacted
them about the item. -/
def ownerToStrangerBody : MessageBody :=
  { itemId := 10, receiverId := 3, messageText := some "want this" }

/-! ## Helper lemmas -/

theorem checkout_err_frame (s : Store) (u : Nat) (e : ApiError)
    (h : (checkout s u).2 = .error e) : (checkout s u).1 = s := by
  by_cases h1 : (cartRows s u).isEmpty
  · simp [checkout, h1]
  · by_cases h2 : ((cartRows s u).filter isValidRow).isEmpty
    · simp [checkout, h1, h2]
    · by_cases h3 :
        ((cartRows s u).filter isValidRow).any (fun r => (r.item.bind Item.price).isNone)
      · simp [checkout, h1, h2, h3]
      · exfalso
        simp [checkout, h1, h2, h3] at h

theorem checkout_ok_inv (s : Store) (u : Nat) (o : Order)
    (h : (checkout s u).2 = .ok o) :
    validRows s u ≠ [] ∧
    (∀ r ∈ validRows s u, (r.item.bind Item.price).isSome = true) ∧
    o = { id := s.nextId, userId := u, total := round2dec (floatTotal (validRows s u)) } ∧
    (checkout s u).1 =
      { s with
          orders := s.orders ++ [o]
          orderItems := s.orderItems ++ buildOrderItems (s.nextId + 1) s.nextId (validRows s u)
          items := (validRows s u).foldl markSoldStep s.items
          cartItems := s.cartItems.filter (fun c => !(c.userId == u))
          nextId := s.nextId + 1 + (validRows s u).length } := by
  have hvr : (cartRows s u).filter isValidRow = validRows s u := rfl
  by_cases h1 : (cartRows s u).isEmpty
  · exfalso
    simp [checkout, h1] at h
  · by_cases h2 : ((cartRows s u).filter isValidRow).isEmpty
    · exfalso
      simp [checkout, h1, h2] at h
    · by_cases h3 :
        ((cartRows s u).filter isValidRow).any (fun r => (r.item.bind Item.price).isNone)
      · exfalso
        simp [checkout, h1, h2, h3] at h
      · have ho : o = { id := s.nextId, userId := u, total := round2dec (floatTotal (validRows s u)) } := by
          have := h
          simp only [checkout, h1, if_false, h2, h3, if_neg, Bool.not_eq_true] at this
          rw [hvr] at this
          simpa using this.symm
        refine ⟨?_, ?_, ho, ?_⟩
        · rw [← hvr]
          simpa [List.isEmpty_iff] using h2
        · intro r hr
          rw [← hvr] at hr
          simp only [List.any_eq_true, not_exists, not_and] at h3
          have := h3 r hr
          simpa [Option.isNone_iff_eq_none, Option.isSome_iff_ne_none] using this
        · simp only [checkout, h1, if_false, h2, h3, if_neg, Bool.not_eq_true]
          rw [hvr, ho]

theorem checkout_ok_of (s : Store) (u : Nat)
    (h2 : validRows s u ≠ [])
    (h3 : ∀ r ∈ validRows s u, (r.item.bind Item.price).isSome = true) :
    checkout s u =
      ({ s with
          orders := s.orders ++
            [{ id := s.nextId, userId := u, total := round2dec (floatTotal (validRows s u)) }]
          orderItems := s.orderItems ++ buildOrderItems (s.nextId + 1) s.nextId (validRows s u)
          items := (validRows s u).foldl markSoldStep s.items
          cartItems := s.cartItems.filter (fun c => !(c.userId == u))
          nextId := s.nextId + 1 + (validRows s u).length },
        .ok { id := s.nextId, userId := u, total := round2dec (floatTotal (validRows s u)) }) := by
  have h1 : ¬ (cartRows s u).isEmpty = true := by
    intro hempty
    apply h2
    have : cartRows s u = [] := by simpa [List.isEmpty_iff] using hempty
    simp [validRows, this]
  have hno : ¬ (validRows s u).any (fun r => (r.item.bind Item.price).isNone) = true := by
    simp only [List.any_eq_true, not_exists, not_and]
    intro r hr
    have := h3 r hr
    simp only [Option.isSome_iff_ne_none] at this
    simpa [Option.isNone_iff_eq_none] using this
  simp only [checkout]
  rw [show (cartRows s u).filter isValidRow = validRows s u from rfl]
  simp only [h1, if_false, hno]
  rw [if_neg (by simpa [List.isEmpty_iff] using h2)]
  simp [hno, h2]

theorem foldl_markSoldStep (rows : List CartRow) (items : List Item) :
    rows.foldl markSoldStep items =
      items.map (fun it =>
        if rows.any (fun r => it.id == (r.item.map Item.id).getD 0) then
          { it with isSold := true }
        else it) := by
  induction rows generalizing items with
  | nil => simp
  | cons r rows ih =>
    rw [List.foldl_cons, ih, markSoldStep, List.map_map]
    apply List.map_congr_left
    intro it _
    by_cases h1 : it.id == (r.item.map Item.id).getD 0
    · simp only [Function.comp_apply, h1, if_true]
      by_cases h2 : rows.any (fun r' => it.id == (r'.item.map Item.id).getD 0)
      · simp [h1, h2]
      · simp [h1, h2]
    · simp only [Function.comp_apply, h1]
      by_cases h2 : rows.any (fun r' => it.id == (r'.item.map Item.id).getD 0)
      · simp [h1, h2]
      · simp [h1, h2]

theorem buildOrderItems_forall₂ (nextId orderId : Nat) (rows : List CartRow) :
    List.Forall₂
      (fun (r : CartRow) (oi : OrderItem) =>
        oi.orderId = orderId ∧ oi.itemId = (r.item.map Item.id).getD 0 ∧
          oi.price = (r.item.bind Item.price).getD 0)
      rows (buildOrderItems nextId orderId rows) := by
  induction rows generalizing nextId with
  | nil => exact List.Forall₂.nil
  | cons r rows ih => exact List.Forall₂.cons ⟨rfl, rfl, rfl⟩ (ih _)

theorem forall₂_exists_mem {α β : Type} {P : α → β → Prop} {l₁ : List α} {l₂ : List β}
    (h : List.Forall₂ P l₁ l₂) : ∀ a ∈ l₁, ∃ b ∈ l₂, P a b := by
  induction h with
  | nil => intro a ha; cases ha
  | cons hab _ ih =>
    intro a ha
    cases ha with
    | head => exact ⟨_, List.mem_cons_self _ _, hab⟩
    | tail _ ha' =>
      obtain ⟨b, hb, hPb⟩ := ih a ha'
      exact ⟨b, List.mem_cons_of_mem _ hb, hPb⟩

theorem forall₂_imp_mem {α β : Type} {P Q : α → β → Prop} {l₁ : List α} {l₂ : List β}
    (h : List.Forall₂ P l₁ l₂) (himp : ∀ a ∈ l₁, ∀ b, P a b → Q a b) :
    List.Forall₂ Q l₁ l₂ := by
  induction h with
  | nil => exact .nil
  | cons hab _ ih =>
    exact .cons (himp _ (List.mem_cons_self _ _) _ hab)
      (ih (fun a ha b hb => himp a (List.mem_cons_of_mem _ ha) b hb))

theorem isValidRow_iff (r : CartRow) :
    isValidRow r = true ↔
      ∃ it, r.item = some it ∧ it.itemType = "sell" ∧ it.isSold = false := by
  cases hr : r.item with
  | none => simp [isValidRow, hr]
  | some it => simp [isValidRow, hr]

theorem createValidatedMessage_items (s : Store) (u : Nat) (b : MessageBody) :
    (createValidatedMessage s u b).1.items = s.items := by
  unfold createValidatedMessage
  split <;> rfl

theorem createValidatedMessage_not_forbidden (s : Store) (u : Nat) (b : MessageBody) :
    isForbidden (createValidatedMessage s u b).2 = false := by
  unfold createValidatedMessage
  split <;> rfl

theorem createValidatedMessage_err_frame (s : Store) (u : Nat) (b : MessageBody)
    (e : ApiError) (h : (createValidatedMessage s u b).2 = .error e) :
    (createValidatedMessage s u b).1 = s := by
  by_cases hval : insertMessageAccepts b.messageText none
  · exfalso
    simp [createValidatedMessage, hval] at h
  · simp [createValidatedMessage, hval]

theorem createValidatedMessage_ok (s : Store) (u : Nat) (b : MessageBody)
    (s' : Store) (m : Message) (h : createValidatedMessage s u b = (s', .ok m)) :
    insertMessageAccepts b.messageText none = true ∧
      m.messageText = b.messageText ∧ m.fileUrl = none ∧
      s' = { s with messages := s.messages ++ [m], nextId := s.nextId + 1 } := by
  by_cases hval : insertMessageAccepts b.messageText none
  · simp only [createValidatedMessage, hval, if_true, Prod.mk.injEq, Except.ok.injEq] at h
    obtain ⟨hs', hm⟩ := h
    subst hm
    exact ⟨hval, rfl, rfl, hs'.symm⟩
  · exfalso
    simp [createValidatedMessage, hval] at h

theorem sendMessage_items (s : Store) (u : Nat) (b : MessageBody) :
    (sendMessage s u b).1.items = s.items := by
  unfold sendMessage
  cases findItem s b.itemId with
  | none => rfl
  | some item =>
    cases findUser s b.receiverId with
    | none => rfl
    | some _ =>
      dsimp only
      split
      · exact createValidatedMessage_items s u b
      · split
        · split
          · rfl
          · exact createValidatedMessage_items s u b
        · rfl

theorem sendMessage_err_frame (s : Store) (u : Nat) (b : MessageBody) (e : ApiError)
    (h : (sendMessage s u b).2 = .error e) : (sendMessage s u b).1 = s := by
  unfold sendMessage at h ⊢
  cases hfi : findItem s b.itemId with
  | none => rfl
  | some item =>
    rw [hfi] at h
    cases hfu : findUser s b.receiverId with
    | none => rfl
    | some ru =>
      rw [hfu] at h
      dsimp only at h ⊢
      by_cases h1 : (b.receiverId == item.userId) = true
      · rw [if_pos h1] at h ⊢
        exact createValidatedMessage_err_frame s u b e h
      · rw [if_neg h1] at h ⊢
        by_cases h2 : (item.userId == u) = true
        · rw [if_pos h2] at h ⊢
          by_cases h3 : (!(getMessagesByItemId s b.itemId u).any
              fun m => m.senderId == b.receiverId && m.receiverId == u) = true
          · rw [if_pos h3]
          · rw [if_neg h3] at h ⊢
            exact createValidatedMessage_err_frame s u b e h
        · rw [if_neg h2]

theorem forall₂_map_self {α β : Type} (l : List α) (f : α → β) (R : α → β → Prop)
    (h : ∀ a ∈ l, R a (f a)) : List.Forall₂ R l (l.map f) := by
  induction l with
  | nil => exact .nil
  | cons a l ih =>
    exact .cons (h a (List.mem_cons_self _ _))
      (ih (fun a' ha' => h a' (List.mem_cons_of_mem _ ha')))

theorem presentNonBlank_none : presentNonBlank none = false := rfl

theorem createValidatedMessage_blank (s : Store) (u : Nat) (b : MessageBody)
    (hblank : presentNonBlank b.messageText = false) :
    createValidatedMessage s u b = (s, .error .validation) := by
  unfold createValidatedMessage
  rw [if_neg]
  simp [insertMessageAccepts, hblank, presentNonBlank_none]

theorem sendMessage_ok (s : Store) (u : Nat) (b : MessageBody) (s' : Store) (m : Message)
    (h : sendMessage s u b = (s', .ok m)) :
    insertMessageAccepts b.messageText none = true ∧
      m.messageText = b.messageText ∧ m.fileUrl = none ∧
      s' = { s with messages := s.messages ++ [m], nextId := s.nextId + 1 } := by
  unfold sendMessage at h
  cases hfi : findItem s b.itemId with
  | none =>
    rw [hfi] at h
    simp at h
  | some item =>
    rw [hfi] at h
    cases hfu : findUser s b.receiverId with
    | none =>
      rw [hfu] at h
      simp at h
    | some ru =>
      rw [hfu] at h
      dsimp only at h
      by_cases h1 : (b.receiverId == item.userId) = true
      · rw [if_pos h1] at h
        exact createValidatedMessage_ok s u b s' m h
      · rw [if_neg h1] at h
        by_cases h2 : (item.userId == u) = true
        · rw [if_pos h2] at h
          by_cases h3 : (!(getMessagesByItemId s b.itemId u).any
              fun mm => mm.senderId == b.receiverId && mm.receiverId == u) = true
          · rw [if_pos h3] at h
            simp at h
          · rw [if_neg h3] at h
            exact createValidatedMessage_ok s u b s' m h
        · rw [if_neg h2] at h
          simp at h

theorem sendMessage_auth_path (s : Store) (u : Nat) (b : MessageBody) (item : Item)
    (ru : User) (hit : findItem s b.itemId = some item)
    (hru : findUser s b.receiverId = some ru)
    (hauth : (b.receiverId == item.userId) = true ∨
      ((item.userId == u) = true ∧
        ((getMessagesByItemId s b.itemId u).any
          (fun m => m.senderId == b.receiverId && m.receiverId == u)) = true)) :
    sendMessage s u b = createValidatedMessage s u b := by
  unfold sendMessage
  rw [hit, hru]
  dsimp only
  rcases hauth with h1 | ⟨h2, h3⟩
  · rw [if_pos h1]
  · by_cases h1 : (b.receiverId == item.userId) = true
    · rw [if_pos h1]
    · rw [if_neg h1, if_pos h2, if_neg (by simp [h3])]

theorem sendMessage_denied (s : Store) (u : Nat) (b : MessageBody) (item : Item)
    (ru : User) (hit : findItem s b.itemId = some item)
    (hru : findUser s b.receiverId = some ru)
    (h1 : (b.receiverId == item.userId) = false)
    (h2 : (item.userId == u) = false ∨
      ((getMessagesByItemId s b.itemId u).any
        (fun m => m.senderId == b.receiverId && m.receiverId == u)) = false) :
    isForbidden (sendMessage s u b).2 = true := by
  unfold sendMessage
  rw [hit, hru]
  dsimp only
  rw [if_neg (by simp [h1])]
  rcases h2 with h2 | h3
  · rw [if_neg (by simp [h2])]
    rfl
  · by_cases h2 : (item.userId == u) = true
    · rw [if_pos h2, if_pos (by simp [h3])]
      rfl
    · rw [if_neg h2]
      rfl

/-- **C4.** Checkout fails with `EmptyCartError` iff the user's cart has
no entries, and with `NoSellableItemsError` iff the cart is non-empty but
holds zero valid (existing, sell, not-sold) rows; on any failure the
store is unchanged — no order, no order-item, no `isSold` flip, no cart
deletion. -/
theorem checkout_failure_characterization (s : Store) (u : Nat) :
    ((checkout s u).2 = .error .emptyCart ↔
      s.cartItems.filter (fun c => c.userId == u) = []) ∧
    ((checkout s u).2 = .error .noSellableItems ↔
      (s.cartItems.filter (fun c => c.userId == u) ≠ [] ∧ validRows s u = [])) ∧
    (∀ e, (checkout s u).2 = .error e → (checkout s u).1 = s) := by
  have hmap : cartRows s u = [] ↔ s.cartItems.filter (fun c => c.userId == u) = [] := by
    simp [cartRows]
  by_cases h1 : (cartRows s u).isEmpty
  · have hrows : cartRows s u = [] := by simpa [List.isEmpty_iff] using h1
    have hfact : (checkout s u).2 = .error .emptyCart := by simp [checkout, h1]
    refine ⟨by simp [hfact, ← hmap, hrows], by simp [hfact, ← hmap, hrows],
      fun e he => checkout_err_frame s u e he⟩
  · have hrows : ¬ cartRows s u = [] := by simpa [List.isEmpty_iff] using h1
    have hfil : ¬ s.cartItems.filter (fun c => c.userId == u) = [] :=
      fun hh => hrows (hmap.mpr hh)
    by_cases h2 : ((cartRows s u).filter isValidRow).isEmpty
    · have hv : validRows s u = [] := by simpa [List.isEmpty_iff, validRows] using h2
      have hfact : (checkout s u).2 = .error .noSellableItems := by
        simp [checkout, h1, h2]
      refine ⟨by simp [hfact, hfil], by simp [hfact, hfil, hv],
        fun e he => checkout_err_frame s u e he⟩
    · have hv : ¬ validRows s u = [] := by simpa [List.isEmpty_iff, validRows] using h2
      by_cases h3 :
          ((cartRows s u).filter isValidRow).any (fun r => (r.item.bind Item.price).isNone)
      · have hfact : (checkout s u).2 = .error .writeFailure := by
          simp [checkout, h1, h2, h3]
        refine ⟨by simp [hfact, hfil], by simp [hfact, hv],
          fun e he => checkout_err_frame s u e he⟩
      · have hfact : ∀ e, ¬ (checkout s u).2 = .error e := by
          intro e
          simp [checkout, h1, h2, h3]
        exact ⟨by simp [hfact, hfil], by simp [hfact, hv],
          fun e he => absurd he (hfact e)⟩

/-- Witness for C4 at concrete inputs: on a store with an empty cart
checkout reports the empty-cart error and leaves the store unchanged, and
the non-empty demo cart does not report it. -/
theorem checkout_failure_characterization_witness :
    (checkout emptyStore 1).2 = .error .emptyCart ∧
    (checkout emptyStore 1).1 = emptyStore ∧
    ¬ (checkout demoStore 1).2 = .error .emptyCart := by
  have h1 := checkout_failure_characterization emptyStore 1
  have h2 := checkout_failure_characterization demoStore 1
  have he : (checkout emptyStore 1).2 = .error .emptyCart :=
    h1.1.mpr (by with_unfolding_all decide)
  exact ⟨he, h1.2.2 _ he,
    fun hc => absurd (h2.1.mp hc) (by with_unfolding_all decide)⟩

/-- **C5.** After a successful checkout by `u`, every cart entry of `u` is
deleted (the invalid ones included), cart entries of other users are
untouched, and the wishlist table is untouched. -/
theorem checkout_clears_cart (s : Store) (u : Nat) (o : Order)
    (h : (checkout s u).2 = .ok o) :
    (checkout s u).1.cartItems = s.cartItems.filter (fun c => !(c.userId == u)) ∧
    (∀ c ∈ (checkout s u).1.cartItems, c.userId ≠ u) ∧
    (∀ c ∈ s.cartItems, c.userId ≠ u → c ∈ (checkout s u).1.cartItems) ∧
    (checkout s u).1.wishlistItems = s.wishlistItems := by
  obtain ⟨-, -, -, hstore⟩ := checkout_ok_inv s u o h
  rw [hstore]
  refine ⟨rfl, ?_, ?_, rfl⟩
  · intro c hc
    have := List.of_mem_filter hc
    simpa using this
  · intro c hc hcu
    exact List.mem_filter.mpr ⟨hc, by simpa using hcu⟩

set_option maxRecDepth 4000 in
/-- Witness for C5: the successful demo checkout clears user 1's cart
(all four entries, the barter and sold ones included) and leaves the
wishlist table as it was. -/
theorem checkout_clears_cart_witness :
    (checkout demoStore 1).1.cartItems =
      demoStore.cartItems.filter (fun c => !(c.userId == 1)) ∧
    (∀ c ∈ (checkout demoStore 1).1.cartItems, c.userId ≠ 1) ∧
    (∀ c ∈ demoStore.cartItems, c.userId ≠ 1 → c ∈ (checkout demoStore 1).1.cartItems) ∧
    (checkout demoStore 1).1.wishlistItems = demoStore.wishlistItems :=
  checkout_clears_cart demoStore 1 { id := 500, userId := 1, total := mkRat 123 4 }
    (by with_unfolding_all decide)

/-- **C3.** On a successful checkout the created order-items correspond
one-to-one, in order, to the valid cart rows (item exists, `itemType =
"sell"`, `isSold = false`): each carries the created order's id, the
item's id, and the item's price as a snapshot; barter and already-sold
items never yield an order-item; every valid row's item is marked sold,
and items not referenced by a valid row are untouched. -/
theorem checkout_orderItems_valid_correspondence (s : Store) (u : Nat) (o : Order)
    (h : (checkout s u).2 = .ok o) :
    (∀ r ∈ cartRows s u,
      (isValidRow r = true ↔
        ∃ it, r.item = some it ∧ it.itemType = "sell" ∧ it.isSold = false)) ∧
    ((checkout s u).1.orderItems.take s.orderItems.length = s.orderItems) ∧
    List.Forall₂
      (fun (r : CartRow) (oi : OrderItem) =>
        oi.orderId = o.id ∧
          ∃ it, r.item = some it ∧ it.itemType = "sell" ∧ it.isSold = false ∧
            oi.itemId = it.id ∧ it.price = some oi.price)
      (validRows s u)
      ((checkout s u).1.orderItems.drop s.orderItems.length) ∧
    (∀ it ∈ s.items, (∃ r ∈ validRows s u, r.item = some it) →
      { it with isSold := true } ∈ (checkout s u).1.items) ∧
    (∀ it ∈ s.items, (∀ r ∈ validRows s u, (r.item.map Item.id).getD 0 ≠ it.id) →
      it ∈ (checkout s u).1.items) := by
  obtain ⟨-, hp, ho, hstore⟩ := checkout_ok_inv s u o h
  refine ⟨fun r _ => isValidRow_iff r, ?_, ?_, ?_, ?_⟩
  · rw [hstore]
    exact List.take_left _ _
  · rw [hstore]
    show List.Forall₂ _ _ ((s.orderItems ++ _).drop s.orderItems.length)
    rw [List.drop_left]
    apply forall₂_imp_mem (buildOrderItems_forall₂ (s.nextId + 1) s.nextId (validRows s u))
    intro r hr oi hP
    have hvalid : isValidRow r = true := List.of_mem_filter hr
    obtain ⟨it, hit, hsell, hnotsold⟩ := (isValidRow_iff r).mp hvalid
    have hbind : r.item.bind Item.price = it.price := by rw [hit]; rfl
    have hps : it.price.isSome = true := by
      have := hp r hr
      rwa [hbind] at this
    obtain ⟨p, hpsome⟩ := Option.isSome_iff_exists.mp hps
    refine ⟨by rw [hP.1, ho], it, hit, hsell, hnotsold, ?_, ?_⟩
    · rw [hP.2.1, hit]
      rfl
    · rw [hP.2.2, hbind, hpsome]
      rfl
  · intro it hmem ⟨r, hr, hrit⟩
    rw [hstore]
    show { it with isSold := true } ∈ (validRows s u).foldl markSoldStep s.items
    rw [foldl_markSoldStep]
    have hany : (validRows s u).any (fun r' => it.id == (r'.item.map Item.id).getD 0) = true := by
      apply List.any_eq_true.mpr
      exact ⟨r, hr, by rw [hrit]; simp⟩
    exact List.mem_map.mpr ⟨it, hmem, by simp only [hany, if_true]⟩
  · intro it hmem hno
    rw [hstore]
    show it ∈ (validRows s u).foldl markSoldStep s.items
    rw [foldl_markSoldStep]
    have hany : (validRows s u).any (fun r' => it.id == (r'.item.map Item.id).getD 0) = false := by
      apply List.any_eq_false.mpr
      intro r hr
      simp only [beq_iff_eq]
      exact fun hh => hno r hr hh.symm
    exact List.mem_map.mpr ⟨it, hmem, by simp only [hany, if_false, Bool.false_eq_true]⟩

set_option maxRecDepth 4000 in
/-- Witness for C3: the demo checkout, where the valid rows are exactly
the two unsold sell items. -/
theorem checkout_orderItems_valid_correspondence_witness :
    (∀ r ∈ cartRows demoStore 1,
      (isValidRow r = true ↔
        ∃ it, r.item = some it ∧ it.itemType = "sell" ∧ it.isSold = false)) ∧
    ((checkout demoStore 1).1.orderItems.take demoStore.orderItems.length =
      demoStore.orderItems) ∧
    List.Forall₂
      (fun (r : CartRow) (oi : OrderItem) =>
        oi.orderId = ({ id := 500, userId := 1, total := mkRat 123 4 : Order }).id ∧
          ∃ it, r.item = some it ∧ it.itemType = "sell" ∧ it.isSold = false ∧
            oi.itemId = it.id ∧ it.price = some oi.price)
      (validRows demoStore 1)
      ((checkout demoStore 1).1.orderItems.drop demoStore.orderItems.length) ∧
    (∀ it ∈ demoStore.items, (∃ r ∈ validRows demoStore 1, r.item = some it) →
      { it with isSold := true } ∈ (checkout demoStore 1).1.items) ∧
    (∀ it ∈ demoStore.items,
      (∀ r ∈ validRows demoStore 1, (r.item.map Item.id).getD 0 ≠ it.id) →
      it ∈ (checkout demoStore 1).1.items) :=
  checkout_orderItems_valid_correspondence demoStore 1
    { id := 500, userId := 1, total := mkRat 123 4 } (by with_unfolding_all decide)

/-- **C10.** The checkout validity filter does not test ownership: a
user's own unsold sell item sitting in their own cart is treated as a
valid row — checkout succeeds, creates an order-item for it at its price,
and marks it sold.  (The price hypothesis reflects that every valid row
carries a price, which checkout needs to complete its inserts.) -/
theorem self_purchase_allowed (s : Store) (u : Nat) (c : CartEntry) (it : Item)
    (hc : c ∈ s.cartItems) (hcu : c.userId = u)
    (hit : findItem s c.itemId = some it)
    (hown : it.userId = u) (hsell : it.itemType = "sell") (hns : it.isSold = false)
    (hprices : ∀ r ∈ validRows s u, (r.item.bind Item.price).isSome = true) :
    ∃ o : Order, (checkout s u).2 = .ok o ∧
      (∃ oi ∈ (checkout s u).1.orderItems,
        oi.orderId = o.id ∧ oi.itemId = it.id ∧ it.price = some oi.price) ∧
      { it with isSold := true } ∈ (checkout s u).1.items := by
  have hrmem : ({ cartItem := c, item := some it } : CartRow) ∈ cartRows s u := by
    apply List.mem_map.mpr
    exact ⟨c, List.mem_filter.mpr ⟨hc, by simp [hcu]⟩, by rw [hit]⟩
  have hvalid : isValidRow { cartItem := c, item := some it } = true := by
    simp [isValidRow, hsell, hns]
  have hrv : ({ cartItem := c, item := some it } : CartRow) ∈ validRows s u :=
    List.mem_filter.mpr ⟨hrmem, hvalid⟩
  have hne : validRows s u ≠ [] := by
    intro hh
    rw [hh] at hrv
    cases hrv
  have hck := checkout_ok_of s u hne hprices
  refine ⟨{ id := s.nextId, userId := u, total := round2dec (floatTotal (validRows s u)) },
    by rw [hck], ?_, ?_⟩
  · obtain ⟨oi, hoi, hP⟩ := forall₂_exists_mem
      (buildOrderItems_forall₂ (s.nextId + 1) s.nextId (validRows s u)) _ hrv
    refine ⟨oi, ?_, hP.1, ?_, ?_⟩
    · rw [hck]
      exact List.mem_append_right _ hoi
    · rw [hP.2.1]
      rfl
    · have hps := hprices _ hrv
      have hbind : ({ cartItem := c, item := some it } : CartRow).item.bind Item.price
          = it.price := rfl
      rw [hbind] at hps
      obtain ⟨p, hpsome⟩ := Option.isSome_iff_exists.mp hps
      rw [hP.2.2, hbind, hpsome]
      rfl
  · rw [hck]
    show { it with isSold := true } ∈ (validRows s u).foldl markSoldStep s.items
    rw [foldl_markSoldStep]
    have hany : (validRows s u).any (fun r' => it.id == (r'.item.map Item.id).getD 0) = true :=
      List.any_eq_true.mpr ⟨_, hrv, by simp⟩
    exact List.mem_map.mpr
      ⟨it, List.mem_of_find?_eq_some hit, by simp only [hany, if_true]⟩

/-- **C7, counterexample.** The claim that every item accepted at
creation satisfies "price non-null iff sell, expected-exchange non-null
iff barter" is false: `insertItemSchema` is `createInsertSchema(items)`
with only `id`/`createdAt` omitted and no `.refine`, so `POST /api/items`
accepts an item with `itemType = "sell"` and a null price. -/
theorem item_type_price_invariant_counterexample :
    ¬ (∀ (s : Store) (u : Nat) (b : ItemBody) (it : Item),
        (createItem s u b).2 = .ok it →
        ((it.price ≠ none ↔ it.itemType = "sell") ∧
          (it.expectedExchange ≠ none ↔ it.itemType = "barter"))) := by
  intro hcl
  have h := hcl emptyStore 1 sellNoPriceBody
    { id := 50, userId := 1, title := "ghost item", description := "no price"
      category := "Other", imageUrl := "http://img/x", itemType := "sell"
      expectedExchange := none, price := none, isSold := false }
    (by with_unfolding_all decide)
  exact (h.1.mpr rfl) rfl

/-- **C7, amended.** Item creation rejects with a validation error
exactly when one of the required non-nullable columns (`title`,
`description`, `category`, `imageUrl`, `itemType`) is absent from the
body; `price` and `expectedExchange` are optional and are copied into the
accepted item with no check against `itemType` (the iff invariant is only
enforced by the client-side form, not by the server). -/
theorem item_creation_validation_characterization (s : Store) (u : Nat) (b : ItemBody) :
    ((createItem s u b).2 = .error .validation ↔
      ¬ (b.title.isSome = true ∧ b.description.isSome = true ∧ b.category.isSome = true ∧
          b.imageUrl.isSome = true ∧ b.itemType.isSome = true)) ∧
    (∀ it : Item, (createItem s u b).2 = .ok it →
      it.itemType = b.itemType.getD "" ∧ it.price = b.price ∧
        it.expectedExchange = b.expectedExchange ∧ it.isSold = false ∧ it.userId = u) := by
  by_cases hacc : insertItemAccepts b = true
  · constructor
    · constructor
      · intro habs
        exfalso
        simp [createItem, hacc] at habs
      · intro hnall
        exfalso
        apply hnall
        simpa [insertItemAccepts, Bool.and_eq_true, and_assoc] using hacc
    · intro it hit
      simp only [createItem, hacc, if_true, Except.ok.injEq] at hit
      subst hit
      exact ⟨rfl, rfl, rfl, rfl, rfl⟩
  · constructor
    · constructor
      · intro _ hall
        apply hacc
        simp only [insertItemAccepts, Bool.and_eq_true]
        exact ⟨⟨⟨⟨hall.1, hall.2.1⟩, hall.2.2.1⟩, hall.2.2.2.1⟩, hall.2.2.2.2⟩
      · intro _
        simp [createItem, hacc]
    · intro it hit
      exfalso
      simp [createItem, hacc] at hit

/-- Witness for the amended C7: the sell-without-price body is accepted
(not a validation error), exercising the characterization at a concrete
input. -/
theorem item_creation_validation_characterization_witness :
    ¬ (createItem emptyStore 1 sellNoPriceBody).2 = .error .validation :=
  fun h =>
    ((item_creation_validation_characterization emptyStore 1 sellNoPriceBody).1.mp h)
      (by with_unfolding_all decide)

/-- Witness for C10: user 1 checks out their own listing 30 in
`selfStore`; the checkout succeeds, buying and selling the same account's
item. -/
theorem self_purchase_allowed_witness :
    ∃ o : Order, (checkout selfStore 1).2 = .ok o ∧
      (∃ oi ∈ (checkout selfStore 1).1.orderItems,
        oi.orderId = o.id ∧ oi.itemId = bikeItem.id ∧ bikeItem.price = some oi.price) ∧
      { bikeItem with isSold := true } ∈ (checkout selfStore 1).1.items :=
  self_purchase_allowed selfStore 1 { id := 120, userId := 1, itemId := 30 } bikeItem
    (by with_unfolding_all decide) rfl (by with_unfolding_all decide) rfl rfl rfl
    (by with_unfolding_all decide)

/-- **C6.** `isSold` is modified only by checkout: message send, cart and
wishlist operations leave the items table untouched; item creation only
appends a row with `isSold = false`; item update rewrites every column it
is given but never `isSold`; and checkout itself never clears the flag —
a row changes only from `isSold = false` to the sold copy of itself, so
the transition happens at most once, via checkout alone. -/
theorem isSold_modified_only_by_checkout (s : Store) (u iid : Nat) (ib : ItemBody)
    (ub : UpdateBody) (mb : MessageBody) (oid : Option Nat) :
    (sendMessage s u mb).1.items = s.items ∧
    (addToCart s u oid).1.items = s.items ∧
    (removeFromCart s u iid).items = s.items ∧
    (addToWishlist s u oid).1.items = s.items ∧
    (removeFromWishlist s u iid).items = s.items ∧
    ((createItem s u ib).1.items = s.items ∨
      ∃ n, (createItem s u ib).1.items = s.items ++ [n] ∧ n.isSold = false) ∧
    List.Forall₂ (fun a b => b.id = a.id ∧ b.isSold = a.isSold)
      s.items (updateItemRoute s u iid ub).1.items ∧
    List.Forall₂ (fun a b =>
        b.id = a.id ∧ (a.isSold = true → b.isSold = true) ∧
          (b.isSold = true → a.isSold = true ∨ b = { a with isSold := true }))
      s.items (checkout s u).1.items := by
  refine ⟨sendMessage_items s u mb, ?_, rfl, ?_, rfl, ?_, ?_, ?_⟩
  · unfold addToCart
    cases oid with
    | none => rfl
    | some i =>
      dsimp only
      cases findItem s i with
      | none => rfl
      | some _ => rfl
  · unfold addToWishlist
    cases oid with
    | none => rfl
    | some i =>
      dsimp only
      cases findItem s i with
      | none => rfl
      | some _ => rfl
  · by_cases hacc : insertItemAccepts ib = true
    · right
      have hcreate : (createItem s u ib).1.items = s.items ++
          [{ id := s.nextId, userId := u, title := ib.title.getD "",
             description := ib.description.getD "", category := ib.category.getD "",
             imageUrl := ib.imageUrl.getD "", itemType := ib.itemType.getD "",
             expectedExchange := ib.expectedExchange, price := ib.price,
             isSold := false }] := by
        simp [createItem, hacc]
      exact ⟨_, hcreate, rfl⟩
    · left
      simp [createItem, hacc]
  · unfold updateItemRoute
    cases findItem s iid with
    | none => exact List.forall₂_same.mpr (fun x _ => ⟨rfl, rfl⟩)
    | some item =>
      dsimp only
      split
      · exact List.forall₂_same.mpr (fun x _ => ⟨rfl, rfl⟩)
      · refine forall₂_map_self _ _ _ (fun a _ => ?_)
        by_cases hid : (a.id == iid) = true
        · rw [if_pos hid]
          exact ⟨rfl, rfl⟩
        · rw [if_neg hid]
          exact ⟨rfl, rfl⟩
  · cases hres : (checkout s u).2 with
    | error e =>
      rw [checkout_err_frame s u e hres]
      exact List.forall₂_same.mpr (fun a _ => ⟨rfl, fun h => h, fun h => Or.inl h⟩)
    | ok o =>
      obtain ⟨-, -, -, hstore⟩ := checkout_ok_inv s u o hres
      rw [hstore]
      show List.Forall₂ _ s.items ((validRows s u).foldl markSoldStep s.items)
      rw [foldl_markSoldStep]
      refine forall₂_map_self _ _ _ (fun a _ => ?_)
      by_cases hc : ((validRows s u).any fun r => a.id == (r.item.map Item.id).getD 0) = true
      · rw [if_pos hc]
        exact ⟨rfl, fun _ => rfl, fun _ => Or.inr rfl⟩
      · rw [if_neg hc]
        exact ⟨rfl, fun h => h, fun h => Or.inl h⟩

/-- Witness for C6 at concrete inputs: sending a message in the demo
store leaves the items table untouched. -/
theorem isSold_modified_only_by_checkout_witness :
    (sendMessage demoStore 1 okMsgBody).1.items = demoStore.items :=
  (isSold_modified_only_by_checkout demoStore 1 10 okItemBody updBody okMsgBody
    (some 10)).1

/-- **C1.** For a message about an existing item to an existing receiver,
the send passes authorization (no 403) iff the receiver is the item's
owner, or the sender is the owner and some prior message on this item
goes from the intended receiver to the owner; in every other case it is
rejected. -/
theorem message_send_authorization_iff (s : Store) (senderId : Nat) (b : MessageBody)
    (item : Item) (hitem : findItem s b.itemId = some item)
    (hrecv : (findUser s b.receiverId).isSome = true) :
    isForbidden (sendMessage s senderId b).2 = false ↔
      (b.receiverId = item.userId ∨
        (senderId = item.userId ∧
          ∃ m ∈ s.messages, m.itemId = b.itemId ∧ m.senderId = b.receiverId ∧
            m.receiverId = item.userId)) := by
  obtain ⟨ru, hru⟩ := Option.isSome_iff_exists.mp hrecv
  by_cases h1 : (b.receiverId == item.userId) = true
  · rw [sendMessage_auth_path s senderId b item ru hitem hru (Or.inl h1)]
    exact iff_of_true (createValidatedMessage_not_forbidden s senderId b)
      (Or.inl (by simpa using h1))
  · have h1' : ¬ b.receiverId = item.userId := by simpa using h1
    by_cases h2 : (item.userId == senderId) = true
    · have h2' : senderId = item.userId := by
        have : item.userId = senderId := by simpa using h2
        exact this.symm
      by_cases h3 : ((getMessagesByItemId s b.itemId senderId).any
          fun m => m.senderId == b.receiverId && m.receiverId == senderId) = true
      · rw [sendMessage_auth_path s senderId b item ru hitem hru (Or.inr ⟨h2, h3⟩)]
        refine iff_of_true (createValidatedMessage_not_forbidden s senderId b)
          (Or.inr ⟨h2', ?_⟩)
        obtain ⟨m, hm, hcond⟩ := List.any_eq_true.mp h3
        obtain ⟨hmem, hfc⟩ := List.mem_filter.mp hm
        simp only [Bool.and_eq_true, Bool.or_eq_true, beq_iff_eq] at hcond hfc
        exact ⟨m, hmem, hfc.1, hcond.1, hcond.2.trans h2'⟩
      · have hden := sendMessage_denied s senderId b item ru hitem hru
          (by simpa using h1) (Or.inr (by simpa using h3))
        refine iff_of_false (by simp [hden]) ?_
        rintro (hl | ⟨-, m, hm, hmi, hms, hmr⟩)
        · exact h1' hl
        · apply h3
          refine List.any_eq_true.mpr ⟨m, List.mem_filter.mpr ⟨hm, ?_⟩, ?_⟩
          · simp only [Bool.and_eq_true, Bool.or_eq_true, beq_iff_eq]
            exact ⟨hmi, Or.inr (hmr.trans h2'.symm)⟩
          · simp only [Bool.and_eq_true, beq_iff_eq]
            exact ⟨hms, hmr.trans h2'.symm⟩
    · have hden := sendMessage_denied s senderId b item ru hitem hru
        (by simpa using h1) (Or.inl (by simpa using h2))
      refine iff_of_false (by simp [hden]) ?_
      rintro (hl | ⟨hs, -⟩)
      · exact h1' hl
      · exact absurd hs.symm (by simpa using h2)

/-- Witness for C1: in the demo store the owner (user 2) replying to
buyer 1 about item 10 passes authorization, because buyer 1's message to
the owner exists. -/
theorem message_send_authorization_iff_witness :
    isForbidden (sendMessage demoStore 2 ownerReplyBody).2 = false :=
  (message_send_authorization_iff demoStore 2 ownerReplyBody textbookItem
      (by with_unfolding_all decide) (by with_unfolding_all decide)).mpr
    (Or.inr ⟨rfl, buyerHello, by with_unfolding_all decide, rfl, rfl, rfl⟩)

/-- **C8.** A message send for a nonexistent item yields the not-found
error before any authorization is evaluated; an authorization rejection
is a distinct error constructor from not-found; and every failed send
leaves the messages table unchanged. -/
theorem message_send_error_handling (s : Store) (senderId : Nat) (b : MessageBody) :
    (findItem s b.itemId = none →
      sendMessage s senderId b = (s, .error (.notFound "Item not found"))) ∧
    (∀ e, (sendMessage s senderId b).2 = .error e →
      (sendMessage s senderId b).1.messages = s.messages) ∧
    (∀ m n, ApiError.forbidden m ≠ ApiError.notFound n) := by
  refine ⟨?_, ?_, fun m n h => by cases h⟩
  · intro hnone
    unfold sendMessage
    rw [hnone]
  · intro e he
    rw [sendMessage_err_frame s senderId b e he]

/-- Witness for C8: the demo store returns not-found for a message about
item 999 with no state change, and the owner's unsolicited message to
user 3 fails while leaving the messages table unchanged. -/
theorem message_send_error_handling_witness :
    sendMessage demoStore 1 missingItemMsgBody =
      (demoStore, .error (.notFound "Item not found")) ∧
    (sendMessage demoStore 2 ownerToStrangerBody).1.messages = demoStore.messages := by
  refine ⟨(message_send_error_handling demoStore 1 missingItemMsgBody).1
    (by with_unfolding_all decide), ?_⟩
  exact (message_send_error_handling demoStore 2 ownerToStrangerBody).2.1
    (.forbidden "You can only reply to users who have contacted you about this item")
    (by with_unfolding_all decide)

/-- **C9.** Every message accepted by the send route carries non-blank
text or a file reference (here the text, since this route stores no
file); a send whose text is missing or whitespace-only can never succeed
and leaves the messages table unchanged; and when the item and receiver
exist and authorization passes, the blank send fails precisely with the
validation error. -/
theorem message_content_invariant (s : Store) (senderId : Nat) (b : MessageBody) :
    (∀ s' m, sendMessage s senderId b = (s', .ok m) →
      (presentNonBlank m.messageText || presentNonBlank m.fileUrl) = true ∧
        m ∈ s'.messages) ∧
    (presentNonBlank b.messageText = false →
      (∀ s' m, sendMessage s senderId b ≠ (s', .ok m)) ∧
      (sendMessage s senderId b).1.messages = s.messages) ∧
    (∀ item, findItem s b.itemId = some item →
      (findUser s b.receiverId).isSome = true →
      presentNonBlank b.messageText = false →
      isForbidden (sendMessage s senderId b).2 = false →
      sendMessage s senderId b = (s, .error .validation)) := by
  have hnotok : presentNonBlank b.messageText = false →
      ∀ s' m, sendMessage s senderId b ≠ (s', .ok m) := by
    intro hblank s' m h
    obtain ⟨hacc, -, -, -⟩ := sendMessage_ok s senderId b s' m h
    rw [insertMessageAccepts, hblank, presentNonBlank_none] at hacc
    cases hacc
  refine ⟨?_, ?_, ?_⟩
  · intro s' m h
    obtain ⟨hacc, hmt, hfu, hs'⟩ := sendMessage_ok s senderId b s' m h
    refine ⟨?_, ?_⟩
    · rw [hmt, hfu]
      exact hacc
    · rw [hs']
      exact List.mem_append_right _ (List.mem_singleton.mpr rfl)
  · intro hblank
    refine ⟨hnotok hblank, ?_⟩
    cases hres : (sendMessage s senderId b).2 with
    | error e => rw [sendMessage_err_frame s senderId b e hres]
    | ok m =>
      exfalso
      have : sendMessage s senderId b = ((sendMessage s senderId b).1, .ok m) := by
        rw [← hres]
      exact hnotok hblank _ m this
  · intro item hit hru hblank hnof
    obtain ⟨ru, hru'⟩ := Option.isSome_iff_exists.mp hru
    by_cases h1 : (b.receiverId == item.userId) = true
    · rw [sendMessage_auth_path s senderId b item ru hit hru' (Or.inl h1)]
      exact createValidatedMessage_blank s senderId b hblank
    · by_cases h2 : (item.userId == senderId) = true
      · by_cases h3 : ((getMessagesByItemId s b.itemId senderId).any
            fun m => m.senderId == b.receiverId && m.receiverId == senderId) = true
        · rw [sendMessage_auth_path s senderId b item ru hit hru' (Or.inr ⟨h2, h3⟩)]
          exact createValidatedMessage_blank s senderId b hblank
        · have hden := sendMessage_denied s senderId b item ru hit hru'
            (by simpa using h1) (Or.inr (by simpa using h3))
          rw [hden] at hnof
          cases hnof
      · have hden := sendMessage_denied s senderId b item ru hit hru'
          (by simpa using h1) (Or.inl (by simpa using h2))
        rw [hden] at hnof
        cases hnof

/-- Witness for C9: buyer 1's whitespace-only message to owner 2 about
existing item 10 is rejected with the validation error and creates
nothing. -/
theorem message_content_invariant_witness :
    sendMessage demoStore 1 blankMsgBody = (demoStore, .error .validation) :=
  (message_content_invariant demoStore 1 blankMsgBody).2.2 textbookItem
    (by with_unfolding_all decide) (by with_unfolding_all decide)
    (by with_unfolding_all decide) (by with_unfolding_all decide)

end CampusBarter
